import Mathlib

/-!
Verification of the agentic code-generation orchestrator.

This file gives a shallow embedding of the program's core components and
proves properties of them:

* `parsing.py` — the action parser (`extract_action_block`,
  `parse_action_json`, `validate_action_obj`, `parse_action`,
  `safe_parse_action`);
* `prompts.py` — the memory snapshot and prompt builder (`build_prompt`);
* `agent.py`  — the orchestration loop (`Agent.run`, `Agent._dispatch`),
  modelled as a step function `agentStep` iterated by `agentLoop`;
* `actions.py` — the verification tool (`Actions.run_checks`) and its
  helpers.

Python text is modelled as `List Char` inside the parser and as `String`
elsewhere; machine-level concerns (recursion limits, unicode case folding
beyond ASCII, float literals in JSON) are outside the embedding and are
noted where they are simplified.  Exceptions are modelled with
`Except PyExn`; a `.error` value corresponds to a Python exception
propagating out of the modelled function.
-/

/-- Python exception value: `type(e).__name__` and `str(e)`. -/
structure PyExn where
  name : String
  msg : String
deriving DecidableEq, Repr

/-- The backtick character (written via its code point to keep source plain). -/
def btick : Char := Char.ofNat 96

/-- Whitespace test matching Python's `\s` / `str.strip()` on ASCII text.
(Python additionally treats some unicode code points as whitespace; the
claims are settled on ASCII text.) -/
def pyIsSpace (c : Char) : Bool :=
  c = ' ' || c = '\t' || c = '\n' || c = '\r' || c = '\x0b' || c = '\x0c'

/-- Model of Python `str.strip()` on a character list. -/
def pyStrip (s : List Char) : List Char :=
  ((s.dropWhile pyIsSpace).reverse.dropWhile pyIsSpace).reverse

/-- Model of Python `str.strip()` on a `String`. -/
def pyStripStr (s : String) : String :=
  (pyStrip s.toList).asString

/-- Case-insensitive character match against a lowercase pattern character,
as `re.IGNORECASE` behaves on an ASCII pattern: the subject character is
either the pattern character itself or its ASCII uppercase form. -/
def ciCharEq (c p : Char) : Bool :=
  c = p || (65 ≤ c.toNat && c.toNat ≤ 90 && c.toNat + 32 = p.toNat)

/-- Case-insensitive test that `pat` (a lowercase pattern) occurs at the
start of `s`. -/
def ciStartsWith : List Char → List Char → Bool
  | [], _ => true
  | _ :: _, [] => false
  | p :: ps, c :: cs => ciCharEq c p && ciStartsWith ps cs

/-- Exact prefix test on character lists. -/
def exactStartsWith : List Char → List Char → Bool
  | [], _ => true
  | _ :: _, [] => false
  | p :: ps, c :: cs => (c = p) && exactStartsWith ps cs

/-- Substring test (Python `pat in s`). -/
def containsSub (pat : List Char) (s : List Char) : Bool :=
  match s with
  | [] => exactStartsWith pat []
  | _ :: rest => exactStartsWith pat s || containsSub pat rest

/-- Smallest index `i` with `start ≤ i < start + fuel` satisfying `p`,
scanning left to right. -/
def findFirstIdx (p : Nat → Bool) : Nat → Nat → Option Nat
  | 0, _ => none
  | fuel + 1, start => if p start then some start else findFirstIdx p fuel (start + 1)

/-- The characters of the opening marker of the distinguished fenced block
(the literal part of `ACTION_FENCE_RE`, `parsing.py` line 9). -/
def markerChars : List Char := "```action".toList

/-- The characters of a closing fence. -/
def fenceChars : List Char := "```".toList

/-- Test that the (case-insensitive) marker occurs at index `i` of `s`. -/
def markerAtB (s : List Char) (i : Nat) : Bool :=
  ciStartsWith markerChars (s.drop i)

/-- Test that a closing fence occurs at index `i` of `s`. -/
def fenceAtB (s : List Char) (i : Nat) : Bool :=
  exactStartsWith fenceChars (s.drop i)

/-- Index of the first closing fence at or after index `j`. -/
def firstFenceFrom (s : List Char) (j : Nat) : Option Nat :=
  findFirstIdx (fenceAtB s) (s.length + 1) j

/-- Leftmost index at which `ACTION_FENCE_RE.search` can match: the regex
`(three backticks)action \s* body(lazy) \s* (three backticks)` matches at
`i` exactly when the case-insensitive marker occurs at `i` and some closing
fence occurs at or after `i + 9` (the two `\s*` groups and the lazy body
absorb everything in between).  `re.search` takes the least such `i`. -/
def firstMarkerIdx (s : List Char) : Option Nat :=
  findFirstIdx (fun i => markerAtB s i && (firstFenceFrom s (i + 9)).isSome)
    (s.length + 1) 0

/-- Model of `extract_action_block` (`parsing.py` lines 25-43).  With the
regex matching at leftmost index `i`, the lazy body makes the match end at
the first closing fence at or after `i + 9`; the `\s*` groups on either
side of the body only move whitespace between the body group and its
surroundings, so the `body.strip()` the function returns equals the strip
of everything strictly between the marker and that first closing fence. -/
def extract_action_block (s : List Char) : Except String (List Char) :=
  if (pyStrip s).isEmpty then
    .error "Empty model response; expected an ```action``` block."
  else
    match firstMarkerIdx s with
    | none => .error "No ```action``` block found in model response."
    | some i =>
      match firstFenceFrom s (i + 9) with
      | none => .error "No ```action``` block found in model response."
      | some c =>
        let body := pyStrip ((s.drop (i + 9)).take (c - (i + 9)))
        if body.isEmpty then
          .error "Found ```action``` block but it was empty."
        else
          .ok body

/-- JSON values as produced by `json.loads`.  Numbers are modelled by their
integer part (no claim depends on numeric values; float handling is outside
the embedding). -/
inductive Json where
  | null
  | bool (b : Bool)
  | num (n : Int)
  | str (s : String)
  | arr (xs : List Json)
  | obj (kvs : List (String × Json))

/-- JSON inter-token whitespace (RFC 8259, as accepted by `json.loads`). -/
def jsonWsDrop (s : List Char) : List Char :=
  s.dropWhile (fun c => c = ' ' || c = '\t' || c = '\n' || c = '\r')

/-- Decimal digit test. -/
def isDigitB (c : Char) : Bool := 48 ≤ c.toNat && c.toNat ≤ 57

/-- Hexadecimal digit value, if any. -/
def hexVal (c : Char) : Option Nat :=
  if 48 ≤ c.toNat && c.toNat ≤ 57 then some (c.toNat - 48)
  else if 97 ≤ c.toNat && c.toNat ≤ 102 then some (c.toNat - 87)
  else if 65 ≤ c.toNat && c.toNat ≤ 70 then some (c.toNat - 55)
  else none

/-- Digits to a natural number. -/
def digitsToNat (ds : List Char) : Nat :=
  ds.foldl (fun acc c => acc * 10 + (c.toNat - 48)) 0

/-- Model of JSON string-body scanning (after the opening quote): ordinary
characters, the standard escapes, and `\uXXXX`; raw control characters are
rejected as `json.loads` does in strict mode. -/
def parseJString : Nat → List Char → List Char → Option (String × List Char)
  | 0, _, _ => none
  | _ + 1, _, [] => none
  | fuel + 1, acc, c :: rest =>
    if c = '"' then some (acc.reverse.asString, rest)
    else if c = '\\' then
      match rest with
      | [] => none
      | e :: rest2 =>
        if e = '"' then parseJString fuel ('"' :: acc) rest2
        else if e = '\\' then parseJString fuel ('\\' :: acc) rest2
        else if e = '/' then parseJString fuel ('/' :: acc) rest2
        else if e = 'b' then parseJString fuel ('\x08' :: acc) rest2
        else if e = 'f' then parseJString fuel ('\x0c' :: acc) rest2
        else if e = 'n' then parseJString fuel ('\n' :: acc) rest2
        else if e = 'r' then parseJString fuel ('\r' :: acc) rest2
        else if e = 't' then parseJString fuel ('\t' :: acc) rest2
        else if e = 'u' then
          match rest2 with
          | h1 :: h2 :: h3 :: h4 :: rest3 =>
            match hexVal h1, hexVal h2, hexVal h3, hexVal h4 with
            | some a, some b, some c3, some d =>
              parseJString fuel (Char.ofNat (((a * 16 + b) * 16 + c3) * 16 + d) :: acc) rest3
            | _, _, _, _ => none
          | _ => none
        else none
    else if c.toNat < 32 then none
    else parseJString fuel (c :: acc) rest

/-- Model of JSON number parsing; the fractional part and exponent are
checked for well-formedness but the value is the (signed) integer part. -/
def parseJNum (s : List Char) : Option (Json × List Char) :=
  let (neg, s1) := match s with
    | '-' :: r => (true, r)
    | _ => (false, s)
  let digits := s1.takeWhile isDigitB
  if digits.isEmpty then none
  else if digits.length > 1 && digits.headD ' ' = '0' then none
  else
    let r1 := s1.drop digits.length
    let (okFrac, r2) := match r1 with
      | '.' :: rf =>
        let fd := rf.takeWhile isDigitB
        (!fd.isEmpty, rf.drop fd.length)
      | _ => (true, r1)
    let (okExp, r3) := match r2 with
      | e :: re =>
        if e = 'e' || e = 'E' then
          let re2 := match re with
            | s2 :: rr => if s2 = '+' || s2 = '-' then rr else re
            | [] => re
          let ed := re2.takeWhile isDigitB
          (!ed.isEmpty, re2.drop ed.length)
        else (true, r2)
      | [] => (true, r2)
    if okFrac && okExp then
      let v : Int := Int.ofNat (digitsToNat digits)
      some (.num (if neg then -v else v), r3)
    else none

mutual

/-- Model of `json.loads` value parsing (recursive descent, fuel-indexed). -/
def parseJVal : Nat → List Char → Option (Json × List Char)
  | 0, _ => none
  | fuel + 1, s =>
    match jsonWsDrop s with
    | [] => none
    | c :: rest =>
      if c = '"' then
        match parseJString (rest.length + 1) [] rest with
        | some (str, r) => some (.str str, r)
        | none => none
      else if c = '\x7b' then
        match jsonWsDrop rest with
        | '\x7d' :: r => some (.obj [], r)
        | _ => match parseJObjItems fuel rest with
          | some (kvs, r) => some (.obj kvs, r)
          | none => none
      else if c = '[' then
        match jsonWsDrop rest with
        | ']' :: r => some (.arr [], r)
        | _ => match parseJArrItems fuel rest with
          | some (vs, r) => some (.arr vs, r)
          | none => none
      else if c = 't' then
        if exactStartsWith "rue".toList rest then some (.bool true, rest.drop 3) else none
      else if c = 'f' then
        if exactStartsWith "alse".toList rest then some (.bool false, rest.drop 4) else none
      else if c = 'n' then
        if exactStartsWith "ull".toList rest then some (.null, rest.drop 3) else none
      else if c = '-' || isDigitB c then
        parseJNum (c :: rest)
      else none

/-- Comma-separated JSON array items up to the closing bracket. -/
def parseJArrItems : Nat → List Char → Option (List Json × List Char)
  | 0, _ => none
  | fuel + 1, s =>
    match parseJVal fuel s with
    | none => none
    | some (v, r) =>
      match jsonWsDrop r with
      | ',' :: r2 =>
        match parseJArrItems fuel r2 with
        | some (vs, r3) => some (v :: vs, r3)
        | none => none
      | ']' :: r2 => some ([v], r2)
      | _ => none

/-- Comma-separated JSON object members up to the closing brace. -/
def parseJObjItems : Nat → List Char → Option (List (String × Json) × List Char)
  | 0, _ => none
  | fuel + 1, s =>
    match jsonWsDrop s with
    | '"' :: r =>
      match parseJString (r.length + 1) [] r with
      | none => none
      | some (k, r1) =>
        match jsonWsDrop r1 with
        | ':' :: r2 =>
          match parseJVal fuel r2 with
          | none => none
          | some (v, r3) =>
            match jsonWsDrop r3 with
            | ',' :: r4 =>
              match parseJObjItems fuel r4 with
              | some (kvs, r5) => some ((k, v) :: kvs, r5)
              | none => none
            | '\x7d' :: r4 => some ([(k, v)], r4)
            | _ => none
        | _ => none
    | _ => none

end

/-- Model of `json.loads`: parse one value, allow surrounding whitespace,
require the input to be exhausted. -/
def json_loads (s : List Char) : Option Json :=
  match parseJVal (2 * s.length + 4) s with
  | some (v, r) => if (jsonWsDrop r).isEmpty then some v else none
  | none => none

/-- Python `dict.get` on the member list produced by `json.loads`: later
duplicate keys overwrite earlier ones, so the last binding wins. -/
def jGet (kvs : List (String × Json)) (k : String) : Option Json :=
  kvs.foldl (fun acc p => if p.1 = k then some p.2 else acc) none

/-- Validated instruction extracted from generator output
(`Action` in `parsing.py`; named `ParsedAction` here because Mathlib already declares `Action`). -/
structure ParsedAction where
  tool_name : String
  args : List (String × Json)

/-- Model of `parse_action_json` (`parsing.py` lines 46-61): the body must
be a JSON object.  The text a `JSONDecodeError` carries is abbreviated to a
fixed stand-in; no claim inspects it. -/
def parse_action_json (body : List Char) : Except String (List (String × Json)) :=
  match json_loads body with
  | none => .error "Invalid JSON inside action block: Expecting value"
  | some (.obj kvs) => .ok kvs
  | some _ => .error "Action JSON must be a JSON object (dict)."

/-- Model of `validate_action_obj` (`parsing.py` lines 64-80): `tool_name`
must be a string that is non-blank after stripping; absent or `null` `args`
defaults to the empty mapping, any other non-object `args` is rejected. -/
def validate_action_obj (kvs : List (String × Json)) : Except String ParsedAction :=
  match jGet kvs "tool_name" with
  | some (.str t) =>
    if (pyStrip t.toList).isEmpty then
      .error "Action JSON missing valid \x27tool_name\x27 (string)."
    else
      match jGet kvs "args" with
      | none => .ok ⟨(pyStrip t.toList).asString, []⟩
      | some .null => .ok ⟨(pyStrip t.toList).asString, []⟩
      | some (.obj a) => .ok ⟨(pyStrip t.toList).asString, a⟩
      | some _ => .error "Action JSON \x27args\x27 must be an object/dict."
  | _ => .error "Action JSON missing valid \x27tool_name\x27 (string)."

/-- Model of `parse_action`: extract, parse, validate. -/
def parse_action (s : List Char) : Except String ParsedAction :=
  extract_action_block s >>= fun b => parse_action_json b >>= validate_action_obj

/-- Model of `safe_parse_action`: Python returns the pair
`(action, none)` or `(none, message)`; the two-sided return is rendered as
`Except`, with `.error` carrying `str(e)`.  Every `ActionParseError` raised
inside `parse_action` is caught. -/
def safe_parse_action (s : List Char) : Except String ParsedAction :=
  parse_action s

mutual

/-- Model of Python `repr` on JSON-derived values (dicts, lists, strings,
ints, bools, `None`), as used by `str(spec)` in `_compact_spec` and
`_render_spec_compact`.  String escaping inside `repr` is simplified to
plain single quotes; no claim depends on the rendered text of a container. -/
def pyRepr : Json → String
  | .null => "None"
  | .bool true => "True"
  | .bool false => "False"
  | .num n => toString n
  | .str s => "\x27" ++ s ++ "\x27"
  | .arr xs => "[" ++ String.intercalate ", " (pyReprList xs) ++ "]"
  | .obj kvs => "\x7b" ++ String.intercalate ", " (pyReprObj kvs) ++ "\x7d"

def pyReprList : List Json → List String
  | [] => []
  | v :: vs => pyRepr v :: pyReprList vs

def pyReprObj : List (String × Json) → List String
  | [] => []
  | (k, v) :: kvs => ("\x27" ++ k ++ "\x27: " ++ pyRepr v) :: pyReprObj kvs

end

/-- Model of Python `str` on JSON-derived values: identity on strings,
`repr` otherwise. -/
def pyStr : Json → String
  | .str s => s
  | v => pyRepr v

/-- The pipeline phases (`Phase` in `prompts.py`). -/
inductive Phase where
  | IMPLEMENT
  | DOCS
  | TESTS
  | EVALUATE
  | EXPORT
  | FIX
deriving DecidableEq, Repr

/-- The `str` value of each phase member. -/
def phaseValue : Phase → String
  | .IMPLEMENT => "implement"
  | .DOCS => "docs"
  | .TESTS => "tests"
  | .EVALUATE => "evaluate"
  | .EXPORT => "export"
  | .FIX => "fix"

/-- The static rule preamble (`AGENT_RULES` in `prompts.py`). -/
def AGENT_RULES : String :=
  "You are an agentic code generation assistant.\n\nNON-NEGOTIABLE OUTPUT RULES:\n1) You MUST output exactly one fenced block of type ```action``` containing valid JSON.\n2) The JSON object MUST contain:\n   - \"tool_name\": string\n   - \"args\": object (can be empty)\n3) Do NOT include additional code blocks besides the single ```action``` block.\n\nQUALITY & SAFETY:\n- Prefer Python standard library only if spec.stdlib_only is true.\n- Produce deterministic, testable code.\n- If prior checks failed, prioritize fixing those failures.\n"

/-- Immutable per-iteration context bundle (`MemorySnapshot` in
`prompts.py`). -/
structure MemorySnapshot where
  phase : Phase
  spec : Json
  code : String
  tests : String
  last_checks : Option (List String)
  iteration : Nat
  phase_retries : Nat

/-- Model of `_compact_spec`: render the specification and truncate to the
character ceiling with a visible `...` marker. -/
def compact_spec (spec : Json) (max_chars : Nat) : String :=
  let s := pyStr spec
  if s.length > max_chars then s.take (max_chars - 3) ++ "..." else s

/-- Model of `_phase_instruction` (`prompts.py` lines 83-134). -/
def phase_instruction (snap : MemorySnapshot) : String :=
  match snap.phase with
  | .IMPLEMENT =>
    "Task: Choose the next tool to generate code.\n\nReturn an action:\n- tool_name: \"write_code\"\n- args: \x7b\x7d\n"
  | .DOCS =>
    "Task: Choose the next tool to add docstrings.\n\nReturn an action:\n- tool_name: \"write_docs\"\n- args: \x7b\x7d\n"
  | .TESTS =>
    "Task: Choose the next tool to generate unittest tests.\n\nReturn an action:\n- tool_name: \"write_tests\"\n- args: \x7b\x7d\n"
  | .EVALUATE =>
    "Task: Choose the next tool to run checks.\n\nReturn an action:\n- tool_name: \"run_checks\"\n- args: \x7b\x7d\n"
  | .EXPORT =>
    "Task: Choose the next tool to save files.\n\nReturn an action:\n- tool_name: \"save_file\"\n- args: \x7b\x7d\n"
  | .FIX =>
    "Task: Choose the next tool to fix failures described in LAST_CHECKS.\n\nReturn an action:\n- tool_name: \"write_code\"\n- args: \x7b\x7d\n"

/-- The optional `CURRENT_CODE` section of the prompt (`prompts.py`
lines 67-68): included only when the code artifact is non-blank. -/
def codeSection (snap : MemorySnapshot) : List String :=
  if (pyStripStr snap.code).isEmpty then [] else ["\nCURRENT_CODE:\n" ++ snap.code]

/-- The optional `CURRENT_TESTS` section of the prompt (`prompts.py`
lines 70-71). -/
def testsSection (snap : MemorySnapshot) : List String :=
  if (pyStripStr snap.tests).isEmpty then [] else ["\nCURRENT_TESTS:\n" ++ snap.tests]

/-- The optional `LAST_CHECKS` section of the prompt (`prompts.py`
lines 73-76): present exactly when the snapshot's check list is a
non-empty list (Python truthiness of `Optional[List[str]]`), and holding
the first ten messages, each prefixed with a `- ` marker. -/
def checksSection (snap : MemorySnapshot) : List String :=
  match snap.last_checks with
  | none => []
  | some cs =>
    if cs.isEmpty then []
    else ["\nLAST_CHECKS:\n" ++
      String.intercalate "\n" ((cs.take 10).map (fun c => "- " ++ c))]

/-- The `lines` list accumulated by `build_prompt` before joining. -/
def buildPromptLines (snap : MemorySnapshot) : List String :=
  [AGENT_RULES,
   "\n---\n",
   "PHASE: " ++ phaseValue snap.phase,
   "ITERATION: " ++ toString snap.iteration,
   "PHASE_RETRIES: " ++ toString snap.phase_retries,
   "\nSPEC:\n" ++ compact_spec snap.spec 4000]
  ++ codeSection snap
  ++ testsSection snap
  ++ checksSection snap
  ++ ["\n---\n", phase_instruction snap]

/-- Model of `build_prompt`: the accumulated lines joined with newlines. -/
def build_prompt (snap : MemorySnapshot) : String :=
  String.intercalate "\n" (buildPromptLines snap)

/-- Configuration of the orchestrator (`AgentConfig` in `agent.py`; the
Python defaults are `max_iterations=8`, `max_phase_retries=2`,
`strict=True`, `out_dir="generated"`). -/
structure AgentConfig where
  max_iterations : Nat
  max_phase_retries : Nat
  strict : Bool
  out_dir : String
deriving DecidableEq, Repr

/-- The Python default configuration. -/
def defaultConfig : AgentConfig := ⟨8, 2, true, "generated"⟩

/-- Terminal result of a run (`AgentResult` in `agent.py`). -/
structure AgentResult where
  ok : Bool
  summary : String
  file_paths : Option (List (String × String))
  iterations : Nat
deriving DecidableEq, Repr

/-- Behaviour of the external collaborators, indexed by the iteration
counter at which they are invoked.  `Agent.run` is deterministic given the
collaborators' responses, and it performs at most one `llm.generate` call
and at most one tool dispatch per iteration, so indexing the responses by
the iteration number loses no generality: any stateful collaborator's
behaviour along the (unique) run is captured by such a table.  An `.error`
value models the collaborator raising; a returned value models a reply of
the shape its contract in the design gives it (`write_code`/`write_docs`
return `{code}`, `write_tests` returns `{tests}`, `run_checks` returns
`{ok, checks}`, `save_file` returns `{file_paths}`). -/
structure Collaborators where
  generate : Nat → Except PyExn String
  write_code : Nat → Except PyExn String
  write_docs : Nat → Except PyExn String
  write_tests : Nat → Except PyExn String
  run_checks : Nat → Except PyExn (Bool × List String)
  save_file : Nat → Except PyExn (List (String × String))

/-- Result shape handed back by `Agent._dispatch`, one constructor per
contracted result dictionary. -/
inductive DispatchResult where
  | code (c : String)
  | tests (t : String)
  | checks (ok : Bool) (checks : List String)
  | files (paths : List (String × String))
  | term (ok : Bool) (summary : String)
deriving DecidableEq, Repr

/-- The summary carried by the internal `terminate` branch of
`Agent._dispatch`: `args.get("summary", "Terminated.")`, to which
`Agent.run` later applies `str(...)`.  Applying `str` here is equivalent,
since `str` is the identity on the default string. -/
def terminateSummary (args : List (String × Json)) : String :=
  match jGet args "summary" with
  | some v => pyStr v
  | none => "Terminated."

/-- Model of `Agent._dispatch` (`agent.py` lines 163-213): route the tool
name to the bound collaborator, or raise `ValueError` on an unrecognized
name.  The orchestrator state that Python merges into the call
(spec, code, tests, last checks, strict, out_dir) is determined by the
iteration number along the run, so it is absorbed into the
iteration-indexed `Collaborators` table. -/
def dispatch (env : Collaborators) (i : Nat) (tool_name : String)
    (args : List (String × Json)) : Except PyExn DispatchResult :=
  if tool_name = "write_code" then (env.write_code i).map .code
  else if tool_name = "write_docs" then (env.write_docs i).map .code
  else if tool_name = "write_tests" then (env.write_tests i).map .tests
  else if tool_name = "run_checks" then (env.run_checks i).map (fun p => .checks p.1 p.2)
  else if tool_name = "save_file" then (env.save_file i).map .files
  else if tool_name = "terminate" then .ok (.term true (terminateSummary args))
  else .error ⟨"ValueError", "Unknown tool_name: " ++ tool_name⟩

/-- Mutable loop state of `Agent.run`: the current phase, the two
counters, the artifacts, and the pending check list. -/
structure AgentState where
  phase : Phase
  iteration : Nat
  phase_retries : Nat
  code : String
  tests : String
  last_checks : List String
deriving DecidableEq, Repr

/-- The `MemorySnapshot` that `Agent.run` constructs at the top of an
iteration (`agent.py` lines 56-64): an empty check list is passed as
`None`. -/
def mkSnapshot (spec : Json) (st : AgentState) : MemorySnapshot :=
  ⟨st.phase, spec, st.code, st.tests,
   if st.last_checks.isEmpty then none else some st.last_checks,
   st.iteration, st.phase_retries⟩

/-- Outcome of one pass of the `while` loop body: continue with a new
state, return a terminal result, or let a Python exception escape. -/
inductive StepResult where
  | next (st : AgentState)
  | done (r : AgentResult)
  | raised (e : PyExn)
deriving DecidableEq, Repr

/-- The summary of the iteration-budget result (`agent.py` line 159). -/
def exceededMsg (cfg : AgentConfig) : String :=
  "Exceeded max_iterations=" ++ toString cfg.max_iterations ++ "."

/-- The summary of the parse-retry failure result (`agent.py` line 76). -/
def parseFailSummary (err : String) : String :=
  "Failed to parse action after retries. Last error: " ++ err

/-- The fault-retry pattern repeated at `agent.py` lines 70-80, 86-96 and
144-153: record the diagnostic list for the next snapshot, increment the
phase-retry counter leaving the phase unchanged, and fail the whole run
with the given summary once the counter exceeds the budget. -/
def retryOrFail (cfg : AgentConfig) (st : AgentState) (lc : List String)
    (failSummary : String) : StepResult :=
  if st.phase_retries + 1 > cfg.max_phase_retries then
    .done ⟨false, failSummary, none, st.iteration + 1⟩
  else
    .next ⟨st.phase, st.iteration + 1, st.phase_retries + 1, st.code, st.tests, lc⟩

/-- One pass of the body of the `while` loop in `Agent.run` (`agent.py`
lines 55-155).  The prompt built from the snapshot is consumed by
`llm.generate`, whose response (or raised fault) for this iteration is
`env.generate st.iteration`; note that the `generate` call sits outside
the `try` block, so a fault raised there escapes the loop. -/
def agentStep (env : Collaborators) (cfg : AgentConfig) (spec : Json)
    (st : AgentState) : StepResult :=
  let _prompt := build_prompt (mkSnapshot spec st)
  match env.generate st.iteration with
  | .error e => .raised e
  | .ok model_text =>
    match safe_parse_action model_text.toList with
    | .error err =>
      retryOrFail cfg st ["ActionParseError: " ++ err] (parseFailSummary err)
    | .ok action =>
      match dispatch env st.iteration action.tool_name action.args with
      | .error e =>
        let lc := ["ToolExecutionError in " ++ action.tool_name ++ ": " ++ e.name ++ ": " ++ e.msg]
        retryOrFail cfg st lc
          ("Tool execution failed after retries.\n" ++ String.intercalate "\n" lc)
      | .ok res =>
        match action.tool_name, res with
        | "write_code", .code c =>
          .next ⟨.DOCS, st.iteration + 1, 0, c, st.tests, []⟩
        | "write_docs", .code c =>
          .next ⟨.TESTS, st.iteration + 1, 0, c, st.tests, []⟩
        | "write_tests", .tests t =>
          .next ⟨.EVALUATE, st.iteration + 1, 0, st.code, t, []⟩
        | "run_checks", .checks ok cs =>
          .next ⟨if ok then .EXPORT else .FIX, st.iteration + 1, 0, st.code, st.tests, cs⟩
        | "save_file", .files paths =>
          .done ⟨true, "Generated code and tests successfully.", some paths, st.iteration + 1⟩
        | "terminate", .term ok summ =>
          .done ⟨ok, summ, none, st.iteration + 1⟩
        | t, _ =>
          let lc := ["Unknown tool_name: " ++ t]
          retryOrFail cfg st lc
            ("Unknown tool repeated. " ++ String.intercalate "\n" lc)

/-- The `while iteration < max_iterations` loop of `Agent.run`, with the
remaining number of allowed passes as fuel (each pass increases the
iteration counter by exactly one, so `fuel = max_iterations - iteration`
along the run).  When the fuel runs out the loop exits and returns the
iteration-budget failure result (`agent.py` lines 157-161). -/
def agentLoop (env : Collaborators) (cfg : AgentConfig) (spec : Json) :
    Nat → AgentState → Except PyExn AgentResult
  | 0, st => .ok ⟨false, exceededMsg cfg, none, st.iteration⟩
  | fuel + 1, st =>
    match agentStep env cfg spec st with
    | .next st' => agentLoop env cfg spec fuel st'
    | .done r => .ok r
    | .raised e => .error e

/-- The loop state at entry of `Agent.run` (`agent.py` lines 47-53). -/
def initialAgentState : AgentState := ⟨.IMPLEMENT, 0, 0, "", "", []⟩

/-- Model of `Agent.run`: a `.ok` value is the returned `AgentResult`, a
`.error` value is a Python exception escaping the call. -/
def agentRun (env : Collaborators) (cfg : AgentConfig) (spec : Json) :
    Except PyExn AgentResult :=
  agentLoop env cfg spec cfg.max_iterations initialAgentState

/-- Python type name of a JSON-derived value, for exception text. -/
def jsonTypeName : Json → String
  | .null => "NoneType"
  | .bool _ => "bool"
  | .num _ => "int"
  | .str _ => "str"
  | .arr _ => "list"
  | .obj _ => "dict"

/-- The `AttributeError` raised by calling `.get` on a non-dict value. -/
def attrErr (v : Json) : PyExn :=
  ⟨"AttributeError", "\x27" ++ jsonTypeName v ++ "\x27 object has no attribute \x27get\x27"⟩

/-- Python truthiness of a JSON-derived value. -/
def jsonTruthy : Json → Bool
  | .null => false
  | .bool b => b
  | .num n => n ≠ 0
  | .str s => !s.isEmpty
  | .arr xs => !xs.isEmpty
  | .obj kvs => !kvs.isEmpty

/-- Model of Python `int(x)` on a JSON-derived value: ints pass through,
bools coerce, strings are parsed (sign and digits after stripping;
underscore grouping is outside the model), everything else raises
`TypeError`. -/
def pyIntOfJson : Json → Except PyExn Int
  | .num n => .ok n
  | .bool b => .ok (if b then 1 else 0)
  | .str s =>
    let t := pyStrip s.toList
    let (neg, ds) := match t with
      | '-' :: r => (true, r)
      | '+' :: r => (false, r)
      | _ => (false, t)
    if !ds.isEmpty && ds.all isDigitB then
      let v : Int := Int.ofNat (digitsToNat ds)
      .ok (if neg then -v else v)
    else
      .error ⟨"ValueError", "invalid literal for int() with base 10: " ++ pyRepr (.str s)⟩
  | v => .error ⟨"TypeError", "int() argument must be a string, a bytes-like object or a real number, not \x27" ++ jsonTypeName v ++ "\x27"⟩

/-- Model of `_spec_get_function_name` (`actions.py` lines 25-29):
`spec.get("function", {}).get("name")` if it is a non-blank string, else
`str(spec.get("id", "generated_function"))`.  Calling `.get` on a
non-dict raises. -/
def spec_get_function_name (spec : Json) : Except PyExn String :=
  match spec with
  | .obj kvs =>
    let withFn : Option Json → Except PyExn String := fun fnv =>
      let fallback := match jGet kvs "id" with
        | some v => pyStr v
        | none => "generated_function"
      match fnv with
      | some (.str s) =>
        if (pyStrip s.toList).isEmpty then .ok fallback
        else .ok (pyStrip s.toList).asString
      | _ => .ok fallback
    match jGet kvs "function" with
    | some (.obj f) => withFn (jGet f "name")
    | none => withFn none
    | some other => .error (attrErr other)
  | other => .error (attrErr other)

/-- ASCII lowercase map (Python `str.lower()` on ASCII text). -/
def asciiLower (c : Char) : Char :=
  if 65 ≤ c.toNat && c.toNat ≤ 90 then Char.ofNat (c.toNat + 32) else c

/-- Character kept verbatim by the sanitizer: `[a-z0-9]`.  Underscores and
all other characters take part in run-collapsing. -/
def sanitizeKeep (c : Char) : Bool :=
  (97 ≤ c.toNat && c.toNat ≤ 122) || isDigitB c

/-- Combined effect of `re.sub(r"[^a-z0-9_]+", "_", ...)` followed by
`re.sub(r"_+", "_", ...)`: every maximal run of characters outside
`[a-z0-9]` collapses to a single underscore. -/
def squashRuns : Nat → List Char → List Char
  | 0, _ => []
  | _ + 1, [] => []
  | fuel + 1, c :: rest =>
    if sanitizeKeep c then c :: squashRuns fuel rest
    else '_' :: squashRuns fuel (rest.dropWhile (fun d => !sanitizeKeep d))

/-- Model of `_sanitize_module_name` (`actions.py` lines 32-40). -/
def sanitize_module_name (name : String) : String :=
  let s0 := (pyStrip name.toList).map asciiLower
  let s1 := squashRuns (s0.length + 1) s0
  let s2 := ((s1.dropWhile (fun c => c = '_')).reverse.dropWhile (fun c => c = '_')).reverse
  if s2.isEmpty then "generated_module"
  else if isDigitB (s2.headD ' ') then ("m_".toList ++ s2).asString
  else s2.asString

/-- Characters admitted in the module-name group of `_STD_IMPORT_RE`:
`[a-zA-Z0-9_.]`. -/
def isModChar (c : Char) : Bool :=
  (97 ≤ c.toNat && c.toNat ≤ 122) || (65 ≤ c.toNat && c.toNat ≤ 90) ||
  isDigitB c || c = '_' || c = '.'

/-- Lines of a text, split on newline characters. -/
def splitLinesAux : List Char → List Char → List (List Char)
  | acc, [] => [acc.reverse]
  | acc, c :: rest =>
    if c = '\n' then acc.reverse :: splitLinesAux [] rest
    else splitLinesAux (c :: acc) rest

/-- Lines of a text. -/
def splitLines (s : List Char) : List (List Char) := splitLinesAux [] s

/-- Per-line model of one `_STD_IMPORT_RE` match:
`^\s*(?:from|import)\s+([a-zA-Z0-9_.]+)` anchored at the line start (the
multiline regex only ever matches at line starts; a `\s*` run crossing a
newline reaches the same keyword a later line start also reaches, so the
captured modules agree). -/
def lineImport (line : List Char) : Option (List Char) :=
  let w := line.dropWhile pyIsSpace
  let afterKw : List Char → Option (List Char) := fun r =>
    match r with
    | c :: _ =>
      if pyIsSpace c then
        let m := (r.dropWhile pyIsSpace).takeWhile isModChar
        if m.isEmpty then none else some m
      else none
    | [] => none
  if exactStartsWith "from".toList w then afterKw (w.drop 4)
  else if exactStartsWith "import".toList w then afterKw (w.drop 6)
  else none

/-- The stdlib allow-list of `_detect_nonstdlib_imports`. -/
def stdlib_allow : List String :=
  ["typing", "types", "dataclasses", "enum",
   "re", "math", "json", "statistics", "random",
   "collections", "itertools", "functools", "operator",
   "datetime", "time",
   "pathlib", "os", "sys", "subprocess", "tempfile",
   "logging", "traceback",
   "unittest",
   "hashlib", "hmac", "secrets",
   "urllib", "http",
   "csv", "sqlite3",
   "decimal", "fractions"]

/-- Model of `_detect_nonstdlib_imports` (`actions.py` lines 56-85):
collect each imported module whose top-level package is neither local nor
allow-listed, in match order, full dotted name retained. -/
def detect_nonstdlib_imports (text : String) (local_modules : List String) : List String :=
  ((splitLines text.toList).filterMap lineImport).filterMap (fun m =>
    let top := (m.takeWhile (fun c => c ≠ '.')).asString
    if local_modules.contains top then none
    else if stdlib_allow.contains top then none
    else some m.asString)

/-- Lexicographic (code-point) order on character lists, matching Python
string comparison. -/
def lexLe : List Char → List Char → Bool
  | [], _ => true
  | _ :: _, [] => false
  | a :: as_, b :: bs =>
    if a.toNat < b.toNat then true
    else if b.toNat < a.toNat then false
    else lexLe as_ bs

/-- Insertion into a sorted list of strings. -/
def insertSorted (x : String) : List String → List String
  | [] => [x]
  | y :: ys => if lexLe x.toList y.toList then x :: y :: ys else y :: insertSorted x ys

/-- Insertion sort by code-point order (Python `sorted` on strings). -/
def sortStrings (l : List String) : List String := l.foldr insertSorted []

/-- Remove adjacent duplicates of a sorted list (`sorted(set(...))`). -/
def dedupSorted : List String → List String
  | [] => []
  | [x] => [x]
  | x :: y :: r => if x = y then dedupSorted (y :: r) else x :: dedupSorted (y :: r)

/-- Python `repr` of a list of strings, as interpolated into the
non-stdlib-imports diagnostic. -/
def pyReprStrList (l : List String) : String :=
  "[" ++ String.intercalate ", " (l.map (fun m => "\x27" ++ m ++ "\x27")) ++ "]"

/-- One `re.findall(r"def\s+test_", tests)` match attempt at the head of
`s`, returning the suffix after the match. -/
def matchDefTest (s : List Char) : Option (List Char) :=
  if exactStartsWith "def".toList s then
    let r := s.drop 3
    match r with
    | c :: _ =>
      if pyIsSpace c then
        let r2 := r.dropWhile pyIsSpace
        if exactStartsWith "test_".toList r2 then some (r2.drop 5) else none
      else none
    | [] => none
  else none

/-- Number of non-overlapping `def\s+test_` matches (the `findall` scan:
try each position left to right, resume after a match). -/
def countTestDefs : Nat → List Char → Nat
  | 0, _ => 0
  | _ + 1, [] => 0
  | fuel + 1, c :: rest =>
    match matchDefTest (c :: rest) with
    | some suffix => 1 + countTestDefs fuel suffix
    | none => countTestDefs fuel rest

/-- Count of `def test_` methods in a test file text. -/
def countTestDefsStr (s : String) : Nat :=
  countTestDefs (s.toList.length + 1) s.toList

/-- Result of a completed `subprocess.run` call. -/
structure ProcRes where
  returncode : Int
  stdout : String
  stderr : String
deriving DecidableEq, Repr

/-- Behaviour of the `tempfile`/`subprocess` block of `run_checks`
(`actions.py` lines 213-241): it either raises before the compile result
is examined, raises between the two checks, raises after both, or
completes with both process results. -/
inductive ChecksBlockOutcome where
  | raise0 (e : PyExn)
  | raise1 (compileRes : ProcRes) (e : PyExn)
  | raise2 (compileRes : ProcRes) (testRes : ProcRes) (e : PyExn)
  | normal (compileRes : ProcRes) (testRes : ProcRes)
deriving DecidableEq, Repr

/-- The `py_compile` diagnostic (`actions.py` lines 227-229). -/
def compileFailCheck (cr : ProcRes) : List String :=
  if cr.returncode ≠ 0 then
    let err := pyStripStr (if cr.stderr ≠ "" then cr.stderr else cr.stdout)
    ["py_compile failed: " ++ (if err = "" then "unknown compile error" else err)]
  else []

/-- The `unittest` diagnostic (`actions.py` lines 237-239). -/
def unittestFailCheck (tr : ProcRes) : List String :=
  if tr.returncode ≠ 0 then
    let msg := pyStripStr (tr.stdout ++ "\n" ++ tr.stderr)
    ["unittest failed: " ++ (if msg = "" then "unknown unittest error" else msg)]
  else []

/-- The `except` clause diagnostic (`actions.py` line 241). -/
def excCheck (e : PyExn) : String :=
  "Exception during checks: " ++ e.name ++ ": " ++ e.msg

/-- Diagnostics contributed by the `tempfile`/`subprocess` block. -/
def blockChecks : ChecksBlockOutcome → List String
  | .raise0 e => [excCheck e]
  | .raise1 cr e => compileFailCheck cr ++ [excCheck e]
  | .raise2 cr tr e => compileFailCheck cr ++ unittestFailCheck tr ++ [excCheck e]
  | .normal cr tr => compileFailCheck cr ++ unittestFailCheck tr

/-- The return convention of `run_checks` (`actions.py` lines 243-244):
`{"ok": len(checks) == 0, "checks": checks}`. -/
def finishChecks (checks : List String) : Except PyExn (Bool × List String) :=
  .ok (checks.isEmpty, checks)

/-- Model of `Actions.run_checks` (`actions.py` lines 184-244): accumulate
the function-definition check, the stdlib-import check, the test-count
check and the block diagnostics, then return
`{"ok": len(checks) == 0, "checks": checks}`.  The `strict` flag is
accepted and unused, exactly as in the source.  A `.error` value models
the uncaught exceptions the source can raise outside its `try` block
(non-dict `spec` or `quality`, unparsable `min_tests`). -/
def run_checks (spec : Json) (code tests : String) (strict : Bool)
    (proc : ChecksBlockOutcome) : Except PyExn (Bool × List String) :=
  match spec with
  | .obj skvs =>
    match spec_get_function_name spec with
    | .error e => .error e
    | .ok fn =>
      let c1 : List String :=
        if containsSub ("def " ++ fn ++ "(").toList code.toList then []
        else ["Function definition not found: def " ++ fn ++ "(...)."]
      let stdlibOnly := match jGet skvs "stdlib_only" with
        | some v => jsonTruthy v
        | none => false
      let c2 : List String :=
        if stdlibOnly then
          let bad := detect_nonstdlib_imports (code ++ "\n" ++ tests) [sanitize_module_name fn]
          if bad.isEmpty then []
          else ["Non-stdlib imports detected: " ++ pyReprStrList (dedupSorted (sortStrings bad))]
        else []
      let quality : Json := match jGet skvs "quality" with
        | some v => if jsonTruthy v then v else .obj []
        | none => .obj []
      match (match quality with
             | .obj qkvs =>
               let mv := match jGet qkvs "min_tests" with
                 | some v => v
                 | none => .num 3
               pyIntOfJson (if jsonTruthy mv then mv else .num 3)
             | other => .error (attrErr other)) with
      | .error e => .error e
      | .ok min_tests =>
        let test_methods := countTestDefsStr tests
        let c3 : List String :=
          if (test_methods : Int) < min_tests then
            ["Not enough tests: found " ++ toString test_methods ++
             ", expected >= " ++ toString min_tests ++ "."]
          else []
        finishChecks (c1 ++ c2 ++ c3 ++ blockChecks proc)
  | other => .error (attrErr other)

/-- A scan that never hits a satisfied index returns nothing. -/
theorem findFirstIdx_eq_none (p : Nat → Bool) (fuel start : Nat)
    (h : ∀ k, start ≤ k → p k = false) : findFirstIdx p fuel start = none := by
  induction fuel generalizing start with
  | zero => rfl
  | succ n ih =>
    unfold findFirstIdx
    rw [h start le_rfl]
    simp only [Bool.false_eq_true, if_false]
    exact ih (start + 1) (fun k hk => h k (by omega))

/-- A successful scan returns a satisfied index at or after the start. -/
theorem findFirstIdx_some (p : Nat → Bool) (fuel start j : Nat)
    (h : findFirstIdx p fuel start = some j) : p j = true ∧ start ≤ j := by
  induction fuel generalizing start with
  | zero => simp [findFirstIdx] at h
  | succ n ih =>
    unfold findFirstIdx at h
    by_cases hp : p start = true
    · rw [hp] at h
      simp only [if_true] at h
      cases h
      exact ⟨hp, le_rfl⟩
    · rw [Bool.eq_false_iff.mpr hp] at h
      simp only [Bool.false_eq_true, if_false] at h
      obtain ⟨h1, h2⟩ := ih (start + 1) h
      exact ⟨h1, by omega⟩

/-- A scan finds exactly the least satisfied index in range. -/
theorem findFirstIdx_eq_some (p : Nat → Bool) (fuel start n : Nat)
    (hn : p n = true) (hmin : ∀ k, start ≤ k → k < n → p k = false)
    (h1 : start ≤ n) (h2 : n < start + fuel) :
    findFirstIdx p fuel start = some n := by
  induction fuel generalizing start with
  | zero => omega
  | succ m ih =>
    unfold findFirstIdx
    by_cases hs : start = n
    · subst hs
      rw [hn]
      simp
    · rw [hmin start le_rfl (by omega)]
      simp only [Bool.false_eq_true, if_false]
      exact ih (start + 1) (fun k hk => hmin k (by omega)) (by omega) (by omega)

/-- Stripping gives the empty list exactly when the text is all
whitespace. -/
theorem pyStrip_eq_nil_iff (s : List Char) :
    pyStrip s = [] ↔ ∀ c ∈ s, pyIsSpace c = true := by
  unfold pyStrip
  rw [List.reverse_eq_nil_iff, List.dropWhile_eq_nil_iff]
  constructor
  · intro h c hc
    have hsplit := List.takeWhile_append_dropWhile (p := pyIsSpace) (l := s)
    rw [← hsplit] at hc
    rcases List.mem_append.mp hc with h1 | h1
    · exact List.mem_takeWhile_imp h1
    · exact h (c) (List.mem_reverse.mpr h1)
  · intro h c hc
    exact h c ((List.dropWhile_sublist pyIsSpace).subset (List.mem_reverse.mp hc))

/-- Only a backtick matches the backtick pattern position, even
case-insensitively. -/
theorem ciCharEq_btick (c : Char) (h : ciCharEq c btick = true) : c = btick := by
  unfold ciCharEq at h
  have hb : btick.toNat = 96 := by decide
  simp only [Bool.or_eq_true, Bool.and_eq_true, decide_eq_true_eq] at h
  rcases h with h | ⟨⟨h1, h2⟩, h3⟩
  · exact h
  · rw [hb] at h3
    omega

/-- Text without a backtick has no marker occurrence. -/
theorem markerAtB_eq_false_of_no_btick (s : List Char) (h : btick ∉ s) (i : Nat) :
    markerAtB s i = false := by
  unfold markerAtB markerChars
  cases hd : s.drop i with
  | nil => rfl
  | cons c cs =>
    show ciStartsWith ('\x60' :: _) (c :: cs) = false
    unfold ciStartsWith
    have hc : ciCharEq c '\x60' = false := by
      by_contra hx
      have : c = btick := ciCharEq_btick c (by
        have : ciCharEq c '\x60' ≠ false := hx
        have hb : ('\x60' : Char) = btick := by decide
        rw [hb] at this
        exact eq_true_of_ne_false this)
      apply h
      rw [← this]
      have : c ∈ s.drop i := by rw [hd]; exact List.mem_cons_self c cs
      exact List.mem_of_mem_drop this
    rw [hc]
    rfl

/-- C7: for every input text `safe_parse_action` never raises and returns
either a validated instruction or a typed parse failure message; for every
text with no case-insensitive action marker followed by a closing fence it
returns a failure, never an instruction; and for every blank or
whitespace-only text it returns the empty-response failure. -/
theorem c7_parser_total_and_rejects :
    (∀ s : List Char,
      (∃ a, safe_parse_action s = .ok a) ∨ (∃ e, safe_parse_action s = .error e)) ∧
    (∀ s : List Char,
      (∀ i p, i + 9 ≤ p → markerAtB s i = true → fenceAtB s p = true → False) →
      ∃ e, safe_parse_action s = .error e) ∧
    (∀ s : List Char, pyStrip s = [] →
      safe_parse_action s = .error "Empty model response; expected an ```action``` block.") := by
  refine ⟨?_, ?_, ?_⟩
  · intro s
    cases h : safe_parse_action s with
    | ok a => exact Or.inl ⟨a, rfl⟩
    | error e => exact Or.inr ⟨e, rfl⟩
  · intro s h
    by_cases hs : pyStrip s = []
    · exact ⟨_, by
        unfold safe_parse_action parse_action extract_action_block
        rw [hs]
        rfl⟩
    · have hm : firstMarkerIdx s = none := by
        unfold firstMarkerIdx
        apply findFirstIdx_eq_none
        intro k _
        simp only [Bool.and_eq_false_iff]
        by_cases hmk : markerAtB s k = true
        · right
          cases hf : firstFenceFrom s (k + 9) with
          | none => rfl
          | some j =>
            obtain ⟨h1, h2⟩ := findFirstIdx_some _ _ _ _ hf
            exact absurd (h k j h2 hmk h1) (fun x => x)
        · exact Or.inl (Bool.eq_false_iff.mpr hmk)
      refine ⟨"No ```action``` block found in model response.", ?_⟩
      unfold safe_parse_action parse_action extract_action_block
      rw [hm]
      have : (pyStrip s).isEmpty = false := by
        cases hps : pyStrip s with
        | nil => exact absurd hps hs
        | cons a l => rfl
      rw [this]
      rfl
  · intro s h
    unfold safe_parse_action parse_action extract_action_block
    rw [h]
    rfl

/-- Concrete instance of `c7_parser_total_and_rejects`: a prose-only reply
and a whitespace-only reply are both rejected. -/
theorem c7_witness :
    (∃ e, safe_parse_action ("There is no fenced block here.".toList) = .error e) ∧
    safe_parse_action ("  \n\t ".toList) =
      .error "Empty model response; expected an ```action``` block." := by
  constructor
  · exact c7_parser_total_and_rejects.2.1 _ (fun i p _ hm _ => by
      rw [markerAtB_eq_false_of_no_btick "There is no fenced block here.".toList (by decide) i] at hm
      cases hm)
  · exact c7_parser_total_and_rejects.2.2 _ (by decide)

/-- A pattern case-insensitively matches itself at the head. -/
theorem ciStartsWith_append_self (pat s : List Char) :
    ciStartsWith pat (pat ++ s) = true := by
  induction pat with
  | nil => rfl
  | cons c cs ih =>
    show ciStartsWith (c :: cs) (c :: (cs ++ s)) = true
    unfold ciStartsWith
    rw [ih]
    simp [ciCharEq]

/-- A pattern exactly matches itself at the head. -/
theorem exactStartsWith_append_self (pat s : List Char) :
    exactStartsWith pat (pat ++ s) = true := by
  induction pat with
  | nil => rfl
  | cons c cs ih =>
    show exactStartsWith (c :: cs) (c :: (cs ++ s)) = true
    unfold exactStartsWith
    rw [ih]
    simp

/-- A marker occurrence puts a backtick at its index. -/
theorem btick_at_of_markerAtB (s : List Char) (k : Nat) (h : markerAtB s k = true) :
    s[k]? = some btick := by
  unfold markerAtB at h
  have hm : markerChars = btick :: "``action".toList := by decide
  rw [hm] at h
  cases hd : s.drop k with
  | nil => rw [hd] at h; simp [ciStartsWith] at h
  | cons c cs =>
    rw [hd] at h
    unfold ciStartsWith at h
    rw [Bool.and_eq_true] at h
    have hc : c = btick := ciCharEq_btick c h.1
    rw [← List.head?_drop, hd, hc]
    rfl

/-- A fence occurrence puts a backtick at its index. -/
theorem btick_at_of_fenceAtB (s : List Char) (k : Nat) (h : fenceAtB s k = true) :
    s[k]? = some btick := by
  unfold fenceAtB at h
  have hm : fenceChars = btick :: "``".toList := by decide
  rw [hm] at h
  cases hd : s.drop k with
  | nil => rw [hd] at h; simp [exactStartsWith] at h
  | cons c cs =>
    rw [hd] at h
    unfold exactStartsWith at h
    rw [Bool.and_eq_true, decide_eq_true_eq] at h
    rw [← List.head?_drop, hd, h.1]
    rfl

/-- An index holding a backtick names a backtick element of the list. -/
theorem btick_mem_of_getElem (s : List Char) (k : Nat) (h : s[k]? = some btick) :
    btick ∈ s := by
  obtain ⟨hk, he⟩ := List.getElem?_eq_some_iff.mp h
  rw [← he]
  exact List.getElem_mem hk

/-- C8: in a text built from backtick-free prose, a first fenced action
block with backtick-free body `b1`, and an arbitrary continuation `rest`
(which may contain any number of further action blocks, however well
formed), the parse result is computed from `b1` alone: the continuation is
ignored, a valid first body yields its instruction, and a blank first body
fails the parse regardless of what follows. -/
theorem c8_first_block_governs (pre b1 rest : List Char)
    (h1 : btick ∉ pre) (h2 : btick ∉ b1) :
    safe_parse_action (pre ++ (markerChars ++ (b1 ++ (fenceChars ++ rest)))) =
      (if pyStrip b1 = [] then
        .error "Found ```action``` block but it was empty."
      else parse_action_json (pyStrip b1) >>= validate_action_obj) := by
  have hlen_m : markerChars.length = 9 := by decide
  have hlen_f : fenceChars.length = 3 := by decide
  have hTlen : (pre ++ (markerChars ++ (b1 ++ (fenceChars ++ rest)))).length =
      pre.length + (9 + (b1.length + (3 + rest.length))) := by
    simp [List.length_append, hlen_m, hlen_f]
  have hA : (pre ++ (markerChars ++ (b1 ++ (fenceChars ++ rest)))).drop pre.length =
      markerChars ++ (b1 ++ (fenceChars ++ rest)) := List.drop_left _ _
  have hmarker : markerAtB (pre ++ (markerChars ++ (b1 ++ (fenceChars ++ rest)))) pre.length = true := by
    unfold markerAtB
    rw [hA]
    exact ciStartsWith_append_self _ _
  have hA2 : (pre ++ (markerChars ++ (b1 ++ (fenceChars ++ rest)))).drop
      (pre.length + 9 + b1.length) = fenceChars ++ rest := by
    have hre : pre ++ (markerChars ++ (b1 ++ (fenceChars ++ rest))) =
        (pre ++ (markerChars ++ b1)) ++ (fenceChars ++ rest) := by
      simp [List.append_assoc]
    rw [hre]
    apply List.drop_left'
    simp [List.length_append, hlen_m]
    omega
  have hfence : fenceAtB (pre ++ (markerChars ++ (b1 ++ (fenceChars ++ rest))))
      (pre.length + 9 + b1.length) = true := by
    unfold fenceAtB
    rw [hA2]
    exact exactStartsWith_append_self _ _
  have hnofence : ∀ k, pre.length + 9 ≤ k → k < pre.length + 9 + b1.length →
      fenceAtB (pre ++ (markerChars ++ (b1 ++ (fenceChars ++ rest)))) k = false := by
    intro k hk1 hk2
    by_contra hx
    have hx' := eq_true_of_ne_false hx
    have hbk := btick_at_of_fenceAtB _ _ hx'
    rw [List.getElem?_append_right (by omega : pre.length ≤ k)] at hbk
    rw [List.getElem?_append_right (by omega : markerChars.length ≤ k - pre.length)] at hbk
    rw [List.getElem?_append_left (by omega : k - pre.length - markerChars.length < b1.length)] at hbk
    exact h2 (btick_mem_of_getElem _ _ hbk)
  have hfirstfence : firstFenceFrom (pre ++ (markerChars ++ (b1 ++ (fenceChars ++ rest))))
      (pre.length + 9) = some (pre.length + 9 + b1.length) := by
    unfold firstFenceFrom
    exact findFirstIdx_eq_some _ _ _ _ hfence
      (fun k hk1 hk2 => hnofence k hk1 hk2) (by omega) (by omega)
  have hnomarker : ∀ k, k < pre.length →
      markerAtB (pre ++ (markerChars ++ (b1 ++ (fenceChars ++ rest)))) k = false := by
    intro k hk
    by_contra hx
    have hx' := eq_true_of_ne_false hx
    have hbk := btick_at_of_markerAtB _ _ hx'
    rw [List.getElem?_append_left hk] at hbk
    exact h1 (btick_mem_of_getElem _ _ hbk)
  have hfirstmarker : firstMarkerIdx (pre ++ (markerChars ++ (b1 ++ (fenceChars ++ rest)))) =
      some pre.length := by
    unfold firstMarkerIdx
    apply findFirstIdx_eq_some
    · rw [hmarker, hfirstfence]
      rfl
    · intro k _ hk2
      rw [hnomarker k hk2]
      rfl
    · omega
    · omega
  have hA3 : (pre ++ (markerChars ++ (b1 ++ (fenceChars ++ rest)))).drop (pre.length + 9) =
      b1 ++ (fenceChars ++ rest) := by
    have hre : pre ++ (markerChars ++ (b1 ++ (fenceChars ++ rest))) =
        (pre ++ markerChars) ++ (b1 ++ (fenceChars ++ rest)) := by
      simp [List.append_assoc]
    rw [hre]
    apply List.drop_left'
    simp [List.length_append, hlen_m]
  have hbody : ((pre ++ (markerChars ++ (b1 ++ (fenceChars ++ rest)))).drop (pre.length + 9)).take
      (pre.length + 9 + b1.length - (pre.length + 9)) = b1 := by
    rw [hA3]
    have : pre.length + 9 + b1.length - (pre.length + 9) = b1.length := by omega
    rw [this]
    exact List.take_left _ _
  have hne : (pyStrip (pre ++ (markerChars ++ (b1 ++ (fenceChars ++ rest))))).isEmpty = false := by
    have hmem : btick ∈ pre ++ (markerChars ++ (b1 ++ (fenceChars ++ rest))) := by
      refine List.mem_append.mpr (Or.inr (List.mem_append.mpr (Or.inl ?_)))
      decide
    cases hps : pyStrip (pre ++ (markerChars ++ (b1 ++ (fenceChars ++ rest)))) with
    | cons a l => rfl
    | nil =>
      have hall := (pyStrip_eq_nil_iff _).mp hps
      have := hall btick hmem
      simp [pyIsSpace, btick] at this
  unfold safe_parse_action parse_action extract_action_block
  rw [hne, hfirstmarker]
  simp only [Bool.false_eq_true, if_false, hfirstfence, hbody]
  by_cases hpb : pyStrip b1 = []
  · rw [hpb]
    rfl
  · have hbe : (pyStrip b1).isEmpty = false := by
      cases hps : pyStrip b1 with
      | nil => exact absurd hps hpb
      | cons a l => rfl
    rw [hbe, if_neg hpb]
    rfl

/-- Concrete instance of `c8_first_block_governs`: a reply holding a valid
first block followed by a differently-valued second block parses to the
first block's tool and args; a reply whose first block is blank fails even
though a valid block follows. -/
theorem c8_witness :
    safe_parse_action ("Answer: ".toList ++ (markerChars ++
        ("\n\x7b\"tool_name\": \"write_code\", \"args\": \x7b\"x\": 1\x7d\x7d\n".toList ++
          (fenceChars ++
            "\nignored\n```action\n\x7b\"tool_name\": \"terminate\", \"args\": \x7b\x7d\x7d\n```".toList)))) =
      .ok ⟨"write_code", [("x", Json.num 1)]⟩ ∧
    safe_parse_action ("Answer: ".toList ++ (markerChars ++
        ("  \n ".toList ++
          (fenceChars ++
            "\n```action\n\x7b\"tool_name\": \"terminate\", \"args\": \x7b\x7d\x7d\n```".toList)))) =
      .error "Found ```action``` block but it was empty." := by
  constructor
  · exact (c8_first_block_governs _ _ _ (by decide) (by decide)).trans (by rfl)
  · exact (c8_first_block_governs _ _ _ (by decide) (by decide)).trans (by rfl)

/-- A fault retry that continues advances the iteration counter by one. -/
theorem retryOrFail_next_iteration (cfg : AgentConfig) (st : AgentState)
    (lc : List String) (fs : String) (st' : AgentState)
    (h : retryOrFail cfg st lc fs = .next st') :
    st'.iteration = st.iteration + 1 := by
  unfold retryOrFail at h
  split at h
  · cases h
  · cases h
    rfl

/-- Every continuing pass of the loop advances the iteration counter by
exactly one. -/
theorem agentStep_next_iteration (env : Collaborators) (cfg : AgentConfig)
    (spec : Json) (st st' : AgentState)
    (h : agentStep env cfg spec st = .next st') :
    st'.iteration = st.iteration + 1 := by
  unfold agentStep at h
  repeat' split at h
  all_goals first
    | (cases h <;> rfl)
    | (exact retryOrFail_next_iteration _ _ _ _ _ h)

/-- C2: from any state in phase Evaluate, a parsed `run_checks` action
whose tool completes normally drives the next state to Export (ok) or Fix
(not ok) with the phase-retry counter reset to 0 — never incremented —
and the returned check list carried verbatim into the loop state; the next
snapshot then holds exactly that list (as `None` when it is empty,
following the snapshot construction). -/
theorem c2_evaluate_transition (env : Collaborators) (cfg : AgentConfig) (spec : Json)
    (st : AgentState) (txt : String) (args : List (String × Json)) (ok : Bool)
    (cs : List String)
    (hph : st.phase = .EVALUATE)
    (hg : env.generate st.iteration = .ok txt)
    (hp : safe_parse_action txt.toList = .ok ⟨"run_checks", args⟩)
    (hr : env.run_checks st.iteration = .ok (ok, cs)) :
    agentStep env cfg spec st =
      .next ⟨if ok then .EXPORT else .FIX, st.iteration + 1, 0, st.code, st.tests, cs⟩ ∧
    (mkSnapshot spec ⟨if ok then .EXPORT else .FIX, st.iteration + 1, 0, st.code, st.tests, cs⟩).last_checks =
      (if cs.isEmpty then none else some cs) := by
  refine ⟨?_, rfl⟩
  unfold agentStep
  simp only [hg, hp]
  simp only [dispatch, hr, Except.map]
  rfl

/-- Collaborators whose generator always picks `run_checks` and whose
verify tool reports a failure with one diagnostic. -/
def envEvalFail : Collaborators :=
  ⟨fun _ => .ok "```action\n\x7b\"tool_name\": \"run_checks\", \"args\": \x7b\x7d\x7d\n```",
   fun _ => .ok "", fun _ => .ok "", fun _ => .ok "",
   fun _ => .ok (false, ["unittest failed: boom"]), fun _ => .ok []⟩

/-- Collaborators whose generator always picks `run_checks` and whose
verify tool reports success. -/
def envEvalPass : Collaborators :=
  ⟨fun _ => .ok "```action\n\x7b\"tool_name\": \"run_checks\", \"args\": \x7b\x7d\x7d\n```",
   fun _ => .ok "", fun _ => .ok "", fun _ => .ok "",
   fun _ => .ok (true, []), fun _ => .ok []⟩

/-- An Evaluate-phase state carrying a stale retry count and a stale check
list. -/
def stEval : AgentState := ⟨.EVALUATE, 3, 1, "code", "tests", ["old"]⟩

/-- Concrete instance of `c2_evaluate_transition`: with a stale retry
counter of 1, a failing verification moves to Fix with retries 0 and the
check list carried into the state and snapshot, and a passing verification
moves to Export with retries 0. -/
theorem c2_witness :
    agentStep envEvalFail defaultConfig (.obj []) stEval =
      .next ⟨.FIX, 4, 0, "code", "tests", ["unittest failed: boom"]⟩ ∧
    (mkSnapshot (.obj []) ⟨.FIX, 4, 0, "code", "tests", ["unittest failed: boom"]⟩).last_checks =
      some ["unittest failed: boom"] ∧
    agentStep envEvalPass defaultConfig (.obj []) stEval =
      .next ⟨.EXPORT, 4, 0, "code", "tests", []⟩ := by
  refine ⟨?_, ?_, ?_⟩
  · exact ((c2_evaluate_transition envEvalFail defaultConfig (.obj []) stEval _ [] false
      ["unittest failed: boom"] rfl rfl (by rfl) rfl).1).trans (by rfl)
  · exact ((c2_evaluate_transition envEvalFail defaultConfig (.obj []) stEval _ [] false
      ["unittest failed: boom"] rfl rfl (by rfl) rfl).2).trans (by rfl)
  · exact ((c2_evaluate_transition envEvalPass defaultConfig (.obj []) stEval _ [] true []
      rfl rfl (by rfl) rfl).1).trans (by rfl)

/-- C5: a parsed `terminate` instruction is dispatched from any phase and
any state, ends the run in that same iteration, and the produced result's
`ok` and `summary` are exactly the `ok` flag and summary field of the
outcome the terminate dispatch returns. -/
theorem c5_terminate (env : Collaborators) (cfg : AgentConfig) (spec : Json)
    (st : AgentState) (txt : String) (args : List (String × Json)) (tOk : Bool)
    (tSum : String)
    (hg : env.generate st.iteration = .ok txt)
    (hp : safe_parse_action txt.toList = .ok ⟨"terminate", args⟩)
    (hd : dispatch env st.iteration "terminate" args = .ok (.term tOk tSum)) :
    agentStep env cfg spec st = .done ⟨tOk, tSum, none, st.iteration + 1⟩ := by
  unfold agentStep
  simp only [hg, hp]
  rw [hd]
  rfl

/-- Concrete instance of `c5_terminate`: from a mid-run Docs-phase state, a
terminate instruction ends the run at once with the dispatch outcome's
`ok = true` and its summary taken from the args. -/
theorem c5_witness :
    agentStep
      ⟨fun _ => .ok "```action\n\x7b\"tool_name\": \"terminate\", \"args\": \x7b\"summary\": \"stopping now\"\x7d\x7d\n```",
       fun _ => .ok "", fun _ => .ok "", fun _ => .ok "",
       fun _ => .ok (true, []), fun _ => .ok []⟩
      defaultConfig (.obj []) ⟨.DOCS, 5, 2, "c", "t", []⟩ =
      .done ⟨true, "stopping now", none, 6⟩ :=
  c5_terminate _ _ _ _ _ [("summary", Json.str "stopping now")] true "stopping now"
    rfl (by rfl) (by rfl)

/-- Text starting with the pattern contains it. -/
theorem containsSub_of_exactStartsWith (pat s : List Char)
    (h : exactStartsWith pat s = true) : containsSub pat s = true := by
  cases s with
  | nil => simpa [containsSub] using h
  | cons c cs =>
    unfold containsSub
    rw [h]
    rfl

/-- A pattern is found inside any text that embeds it verbatim. -/
theorem containsSub_embed (pre pat suf : List Char) :
    containsSub pat (pre ++ (pat ++ suf)) = true := by
  induction pre with
  | nil =>
    rw [List.nil_append]
    exact containsSub_of_exactStartsWith _ _ (exactStartsWith_append_self _ _)
  | cons c cs ih =>
    show containsSub pat (c :: (cs ++ (pat ++ suf))) = true
    unfold containsSub
    rw [ih]
    simp

/-- Collaborators whose generator proposes the unrecognized tool name
`write_code: ValueError: oops`. -/
def envUnknownTool : Collaborators :=
  ⟨fun _ => .ok "```action\n\x7b\"tool_name\": \"write_code: ValueError: oops\", \"args\": \x7b\x7d\x7d\n```",
   fun _ => .ok "", fun _ => .ok "", fun _ => .ok "",
   fun _ => .ok (true, []), fun _ => .ok []⟩

/-- Collaborators whose generator proposes the recognized tool
`write_code`, whose collaborator then raises a `ValueError` while
executing. -/
def envCollabRaise : Collaborators :=
  ⟨fun _ => .ok "```action\n\x7b\"tool_name\": \"write_code\", \"args\": \x7b\x7d\x7d\n```",
   fun _ => .error ⟨"ValueError", "oops: ValueError: Unknown tool_name: write_code: ValueError: oops"⟩,
   fun _ => .ok "", fun _ => .ok "",
   fun _ => .ok (true, []), fun _ => .ok []⟩

/-- C3 counterexample: dispatching the unrecognized tool name
`write_code: ValueError: oops` produces exactly the same loop outcome —
the same `ToolExecutionError` diagnostic, phase, and counters — as the
recognized tool `write_code` whose collaborator raises during execution,
so the unrecognized-tool fault is not reported as its own fault kind
distinguishable from a collaborator raising: both flow through the same
exception handler of the run loop. -/
theorem c3_counterexample :
    safe_parse_action
        "```action\n\x7b\"tool_name\": \"write_code: ValueError: oops\", \"args\": \x7b\x7d\x7d\n```".toList =
      .ok ⟨"write_code: ValueError: oops", []⟩ ∧
    ("write_code: ValueError: oops" ∉
      ["write_code", "write_docs", "write_tests", "run_checks", "save_file", "terminate"]) ∧
    safe_parse_action
        "```action\n\x7b\"tool_name\": \"write_code\", \"args\": \x7b\x7d\x7d\n```".toList =
      .ok ⟨"write_code", []⟩ ∧
    agentStep envUnknownTool defaultConfig (.obj []) initialAgentState =
      agentStep envCollabRaise defaultConfig (.obj []) initialAgentState ∧
    agentStep envUnknownTool defaultConfig (.obj []) initialAgentState =
      .next ⟨.IMPLEMENT, 1, 1, "", "",
        ["ToolExecutionError in write_code: ValueError: oops: ValueError: Unknown tool_name: write_code: ValueError: oops"]⟩ :=
  ⟨by rfl, by decide, by rfl, by rfl, by rfl⟩

/-- C3 amended: a validated action with an unrecognized tool name makes
`_dispatch` raise `ValueError("Unknown tool_name: ...")`, which the run
loop catches through the same handler as a collaborator raise: the
recorded `ToolExecutionError` diagnostic contains the literal tool name,
the phase is unchanged, the phase-retry counter is incremented by 1
(failing the run only when it exceeds the budget), and no fault escapes
the loop. -/
theorem c3_amended (env : Collaborators) (cfg : AgentConfig) (spec : Json)
    (st : AgentState) (txt : String) (t : String) (args : List (String × Json))
    (hg : env.generate st.iteration = .ok txt)
    (hp : safe_parse_action txt.toList = .ok ⟨t, args⟩)
    (ht : t ∉ ["write_code", "write_docs", "write_tests", "run_checks", "save_file", "terminate"]) :
    agentStep env cfg spec st =
      (if st.phase_retries + 1 > cfg.max_phase_retries then
        .done ⟨false,
          "Tool execution failed after retries.\n" ++
            ("ToolExecutionError in " ++ t ++ ": " ++ "ValueError" ++ ": " ++
              ("Unknown tool_name: " ++ t)),
          none, st.iteration + 1⟩
      else
        .next ⟨st.phase, st.iteration + 1, st.phase_retries + 1, st.code, st.tests,
          ["ToolExecutionError in " ++ t ++ ": " ++ "ValueError" ++ ": " ++
            ("Unknown tool_name: " ++ t)]⟩) ∧
    containsSub t.toList
      ("ToolExecutionError in " ++ t ++ ": " ++ "ValueError" ++ ": " ++
        ("Unknown tool_name: " ++ t)).toList = true := by
  have h1 : t ≠ "write_code" := fun he => ht (by simp [he])
  have h2 : t ≠ "write_docs" := fun he => ht (by simp [he])
  have h3 : t ≠ "write_tests" := fun he => ht (by simp [he])
  have h4 : t ≠ "run_checks" := fun he => ht (by simp [he])
  have h5 : t ≠ "save_file" := fun he => ht (by simp [he])
  have h6 : t ≠ "terminate" := fun he => ht (by simp [he])
  constructor
  · unfold agentStep
    simp only [hg, hp]
    have hd : dispatch env st.iteration t args =
        .error ⟨"ValueError", "Unknown tool_name: " ++ t⟩ := by
      unfold dispatch
      rw [if_neg h1, if_neg h2, if_neg h3, if_neg h4, if_neg h5, if_neg h6]
    rw [hd]
    rfl
  · have hta : ∀ a b : String, (a ++ b).toList = a.toList ++ b.toList := fun _ _ => rfl
    have hsplit : ("ToolExecutionError in " ++ t ++ ": " ++ "ValueError" ++ ": " ++
        ("Unknown tool_name: " ++ t)).toList =
        "ToolExecutionError in ".toList ++ (t.toList ++
          (": ".toList ++ ("ValueError".toList ++ (": ".toList ++
            ("Unknown tool_name: ".toList ++ t.toList))))) := by
      simp only [hta, List.append_assoc]
    rw [hsplit]
    exact containsSub_embed _ _ _

/-- Concrete instance of `c3_amended`: the tool name `frobnicate` is
handled without an escaping fault, keeps the phase, bumps the retry
counter, and its diagnostic embeds the name. -/
theorem c3_witness :
    agentStep
      ⟨fun _ => .ok "```action\n\x7b\"tool_name\": \"frobnicate\", \"args\": \x7b\x7d\x7d\n```",
       fun _ => .ok "", fun _ => .ok "", fun _ => .ok "",
       fun _ => .ok (true, []), fun _ => .ok []⟩
      defaultConfig (.obj []) ⟨.TESTS, 2, 0, "c", "t", []⟩ =
      .next ⟨.TESTS, 3, 1, "c", "t",
        ["ToolExecutionError in frobnicate: ValueError: Unknown tool_name: frobnicate"]⟩ ∧
    containsSub "frobnicate".toList
      ("ToolExecutionError in " ++ "frobnicate" ++ ": " ++ "ValueError" ++ ": " ++
        ("Unknown tool_name: " ++ "frobnicate")).toList = true := by
  have h := c3_amended
    ⟨fun _ => .ok "```action\n\x7b\"tool_name\": \"frobnicate\", \"args\": \x7b\x7d\x7d\n```",
     fun _ => .ok "", fun _ => .ok "", fun _ => .ok "",
     fun _ => .ok (true, []), fun _ => .ok []⟩
    defaultConfig (.obj []) ⟨.TESTS, 2, 0, "c", "t", []⟩
    "```action\n\x7b\"tool_name\": \"frobnicate\", \"args\": \x7b\x7d\x7d\n```" "frobnicate" []
    rfl (by rfl) (by decide)
  exact ⟨h.1.trans (by rfl), h.2⟩

/-- A run in which every generator reply fails to parse walks the retry
counter from its current value up to the budget and then fails, having
made exactly `budget + 1 - start` further passes. -/
theorem parse_fail_loop (env : Collaborators) (cfg : AgentConfig) (spec : Json)
    (H : ∀ i, ∃ txt err, env.generate i = .ok txt ∧
      safe_parse_action txt.toList = .error err) :
    ∀ fuel st, st.phase_retries ≤ cfg.max_phase_retries →
      cfg.max_phase_retries + 1 - st.phase_retries ≤ fuel →
      ∃ err, agentLoop env cfg spec fuel st =
        .ok ⟨false, parseFailSummary err, none,
          st.iteration + (cfg.max_phase_retries - st.phase_retries) + 1⟩ := by
  intro fuel
  induction fuel with
  | zero => intro st h1 h2; omega
  | succ n ih =>
    intro st h1 h2
    obtain ⟨txt, err, hg, hp⟩ := H st.iteration
    have hstep : agentStep env cfg spec st =
        retryOrFail cfg st ["ActionParseError: " ++ err] (parseFailSummary err) := by
      unfold agentStep
      simp only [hg, hp]
    by_cases hr : st.phase_retries + 1 > cfg.max_phase_retries
    · refine ⟨err, ?_⟩
      have hdone : agentStep env cfg spec st =
          .done ⟨false, parseFailSummary err, none, st.iteration + 1⟩ := by
        rw [hstep]
        unfold retryOrFail
        rw [if_pos hr]
      show agentLoop env cfg spec (n + 1) st = _
      unfold agentLoop
      rw [hdone]
      have he : st.iteration + (cfg.max_phase_retries - st.phase_retries) + 1 =
          st.iteration + 1 := by omega
      rw [he]
    · have hnext : agentStep env cfg spec st =
          .next ⟨st.phase, st.iteration + 1, st.phase_retries + 1, st.code, st.tests,
            ["ActionParseError: " ++ err]⟩ := by
        rw [hstep]
        unfold retryOrFail
        rw [if_neg hr]
      obtain ⟨err', hloop⟩ := ih ⟨st.phase, st.iteration + 1, st.phase_retries + 1,
        st.code, st.tests, ["ActionParseError: " ++ err]⟩
        (by show st.phase_retries + 1 ≤ cfg.max_phase_retries; omega)
        (by show cfg.max_phase_retries + 1 - (st.phase_retries + 1) ≤ n; omega)
      refine ⟨err', ?_⟩
      show agentLoop env cfg spec (n + 1) st = _
      unfold agentLoop
      rw [hnext]
      refine hloop.trans ?_
      dsimp only
      have he : st.iteration + 1 + (cfg.max_phase_retries - (st.phase_retries + 1)) + 1 =
          st.iteration + (cfg.max_phase_retries - st.phase_retries) + 1 := by omega
      rw [he]

/-- C4: a parse failure records exactly the protocol-fault diagnostic for
the next snapshot, increments the phase-retry counter, keeps the phase,
and fails the run only past the budget; and if every reply in a run fails
to parse (with the iteration budget at least `max_phase_retries + 1`),
the run returns `ok = false` after exactly `max_phase_retries + 1`
iterations. -/
theorem c4_parse_failure_retries :
    (∀ (env : Collaborators) (cfg : AgentConfig) (spec : Json) (st : AgentState)
      (txt err : String),
      env.generate st.iteration = .ok txt →
      safe_parse_action txt.toList = .error err →
      agentStep env cfg spec st =
        (if st.phase_retries + 1 > cfg.max_phase_retries then
          .done ⟨false, parseFailSummary err, none, st.iteration + 1⟩
        else
          .next ⟨st.phase, st.iteration + 1, st.phase_retries + 1, st.code, st.tests,
            ["ActionParseError: " ++ err]⟩)) ∧
    (∀ (env : Collaborators) (cfg : AgentConfig) (spec : Json),
      (∀ i, ∃ txt err, env.generate i = .ok txt ∧
        safe_parse_action txt.toList = .error err) →
      cfg.max_phase_retries + 1 ≤ cfg.max_iterations →
      ∃ err, agentRun env cfg spec =
        .ok ⟨false, parseFailSummary err, none, cfg.max_phase_retries + 1⟩) := by
  constructor
  · intro env cfg spec st txt err hg hp
    unfold agentStep
    simp only [hg, hp]
    rfl
  · intro env cfg spec H hbudget
    obtain ⟨err, hloop⟩ := parse_fail_loop env cfg spec H cfg.max_iterations
      initialAgentState (by show (0 : Nat) ≤ cfg.max_phase_retries; omega)
      (by show cfg.max_phase_retries + 1 - 0 ≤ cfg.max_iterations; omega)
    refine ⟨err, hloop.trans ?_⟩
    have he : initialAgentState.iteration +
        (cfg.max_phase_retries - initialAgentState.phase_retries) + 1 =
        cfg.max_phase_retries + 1 := by
      show 0 + (cfg.max_phase_retries - 0) + 1 = _
      omega
    rw [he]

/-- Collaborators whose generator never produces an action block. -/
def envParseFail : Collaborators :=
  ⟨fun _ => .ok "I cannot decide on a tool right now.",
   fun _ => .ok "", fun _ => .ok "", fun _ => .ok "",
   fun _ => .ok (true, []), fun _ => .ok []⟩

/-- Concrete instance of `c4_parse_failure_retries`: with the default
budgets (`max_iterations = 8`, `max_phase_retries = 2`), a run whose every
reply is unparseable fails after exactly 3 iterations. -/
theorem c4_witness :
    ∃ err, agentRun envParseFail defaultConfig (.obj []) =
      .ok ⟨false, parseFailSummary err, none, 3⟩ :=
  c4_parse_failure_retries.2 envParseFail defaultConfig (.obj [])
    (fun _ => ⟨"I cannot decide on a tool right now.",
      "No ```action``` block found in model response.", rfl, by rfl⟩)
    (by decide)

/-- A fault retry that fails the run reports the incremented iteration
count. -/
theorem retryOrFail_done_iterations (cfg : AgentConfig) (st : AgentState)
    (lc : List String) (fs : String) (r : AgentResult)
    (h : retryOrFail cfg st lc fs = .done r) : r.iterations = st.iteration + 1 := by
  unfold retryOrFail at h
  split at h
  · cases h
    rfl
  · cases h

/-- Every terminal return from inside the loop body reports the
incremented iteration count. -/
theorem agentStep_done_iterations (env : Collaborators) (cfg : AgentConfig)
    (spec : Json) (st : AgentState) (r : AgentResult)
    (h : agentStep env cfg spec st = .done r) : r.iterations = st.iteration + 1 := by
  unfold agentStep at h
  repeat' split at h
  all_goals first
    | (cases h <;> rfl)
    | (exact retryOrFail_done_iterations _ _ _ _ _ h)

/-- Whatever the collaborators do, a returned result reports at most
`iteration + fuel` iterations. -/
theorem loop_iterations_le (env : Collaborators) (cfg : AgentConfig) (spec : Json) :
    ∀ fuel st r, agentLoop env cfg spec fuel st = .ok r →
      r.iterations ≤ st.iteration + fuel := by
  intro fuel
  induction fuel with
  | zero =>
    intro st r h
    cases h
    show st.iteration ≤ st.iteration + 0
    omega
  | succ n ih =>
    intro st r h
    unfold agentLoop at h
    cases hs : agentStep env cfg spec st with
    | next st' =>
      rw [hs] at h
      have h1 := ih st' r h
      have h2 := agentStep_next_iteration env cfg spec st st' hs
      omega
    | done r' =>
      rw [hs] at h
      have h1 := agentStep_done_iterations env cfg spec st r' hs
      cases h
      omega
    | raised e =>
      rw [hs] at h
      cases h

/-- When every pass of the loop continues, the loop runs the fuel down and
exits through the iteration-budget return. -/
theorem loop_all_next (env : Collaborators) (cfg : AgentConfig) (spec : Json)
    (H : ∀ st, ∃ st', agentStep env cfg spec st = .next st') :
    ∀ fuel st, fuel + st.iteration = cfg.max_iterations →
      agentLoop env cfg spec fuel st =
        .ok ⟨false, exceededMsg cfg, none, cfg.max_iterations⟩ := by
  intro fuel
  induction fuel with
  | zero =>
    intro st h
    have hst : st.iteration = cfg.max_iterations := by omega
    show Except.ok (⟨false, exceededMsg cfg, none, st.iteration⟩ : AgentResult) =
      Except.ok (⟨false, exceededMsg cfg, none, cfg.max_iterations⟩ : AgentResult)
    rw [hst]
  | succ n ih =>
    intro st h
    obtain ⟨st', hs⟩ := H st
    have hit := agentStep_next_iteration env cfg spec st st' hs
    show agentLoop env cfg spec (n + 1) st = _
    unfold agentLoop
    rw [hs]
    exact ih st' (by omega)

/-- C6 counterexample: with the default budgets, a run in which no
terminal tool is ever dispatched (every reply is unparseable, so every
pass is a phase-retry fault) terminates with `ok = false` after 3
iterations, not after `max_iterations = 8`: exhausting the phase-retry
budget ends the run strictly before the iteration budget. -/
theorem c6_counterexample :
    agentStep envParseFail defaultConfig (.obj []) initialAgentState =
      .next ⟨.IMPLEMENT, 1, 1, "", "",
        ["ActionParseError: No ```action``` block found in model response."]⟩ ∧
    agentStep envParseFail defaultConfig (.obj [])
      ⟨.IMPLEMENT, 1, 1, "", "",
        ["ActionParseError: No ```action``` block found in model response."]⟩ =
      .next ⟨.IMPLEMENT, 2, 2, "", "",
        ["ActionParseError: No ```action``` block found in model response."]⟩ ∧
    agentStep envParseFail defaultConfig (.obj [])
      ⟨.IMPLEMENT, 2, 2, "", "",
        ["ActionParseError: No ```action``` block found in model response."]⟩ =
      .done ⟨false,
        "Failed to parse action after retries. Last error: No ```action``` block found in model response.",
        none, 3⟩ ∧
    agentRun envParseFail defaultConfig (.obj []) =
      .ok ⟨false,
        "Failed to parse action after retries. Last error: No ```action``` block found in model response.",
        none, 3⟩ ∧
    (3 : Nat) ≠ defaultConfig.max_iterations :=
  ⟨by rfl, by rfl, by rfl, by rfl, by decide⟩

/-- C6 amended: in any run in which every pass continues — no terminal
tool succeeds and no fault or budget return ends an iteration early — the
run terminates with `ok = false` and a reported iteration count exactly
`max_iterations`; and in every run whatsoever the reported iteration
count never exceeds `max_iterations`. -/
theorem c6_amended :
    (∀ (env : Collaborators) (cfg : AgentConfig) (spec : Json),
      (∀ st, ∃ st', agentStep env cfg spec st = .next st') →
      agentRun env cfg spec = .ok ⟨false, exceededMsg cfg, none, cfg.max_iterations⟩) ∧
    (∀ (env : Collaborators) (cfg : AgentConfig) (spec : Json) (r : AgentResult),
      agentRun env cfg spec = .ok r → r.iterations ≤ cfg.max_iterations) := by
  constructor
  · intro env cfg spec H
    exact loop_all_next env cfg spec H cfg.max_iterations initialAgentState
      (by show cfg.max_iterations + 0 = cfg.max_iterations; omega)
  · intro env cfg spec r h
    have h1 := loop_iterations_le env cfg spec cfg.max_iterations initialAgentState r h
    have h2 : initialAgentState.iteration = 0 := rfl
    omega

/-- Collaborators that always propose `write_code` with a collaborator
that always succeeds: every pass continues, so only the iteration budget
can end the run. -/
def envAlwaysCode : Collaborators :=
  ⟨fun _ => .ok "```action\n\x7b\"tool_name\": \"write_code\", \"args\": \x7b\x7d\x7d\n```",
   fun _ => .ok "def foo():\n    return 1\n",
   fun _ => .ok "", fun _ => .ok "",
   fun _ => .ok (true, []), fun _ => .ok []⟩

/-- A configuration with a small iteration budget and a large phase-retry
budget. -/
def cfgThree : AgentConfig := ⟨3, 100, true, "out"⟩

/-- Concrete instance of `c6_amended`: the always-continuing run stops
with `ok = false` at exactly `max_iterations = 3` iterations, and the
reported count is within the budget. -/
theorem c6_witness :
    agentRun envAlwaysCode cfgThree (.obj []) =
      .ok ⟨false, "Exceeded max_iterations=3.", none, 3⟩ ∧
    (3 : Nat) ≤ cfgThree.max_iterations := by
  have h1 : agentRun envAlwaysCode cfgThree (.obj []) =
      .ok ⟨false, "Exceeded max_iterations=3.", none, 3⟩ :=
    (c6_amended.1 envAlwaysCode cfgThree (.obj []) (fun st => ⟨_, rfl⟩)).trans (by rfl)
  exact ⟨h1, c6_amended.2 envAlwaysCode cfgThree (.obj []) _ h1⟩

/-- A fault retry never lets an exception escape. -/
theorem retryOrFail_ne_raised (cfg : AgentConfig) (st : AgentState)
    (lc : List String) (fs : String) (e : PyExn) :
    retryOrFail cfg st lc fs ≠ .raised e := by
  unfold retryOrFail
  split
  · intro h
    cases h
  · intro h
    cases h

/-- The only raise site of the loop body is the generate call itself
(`agent.py` line 67, outside the `try`). -/
theorem agentStep_raised (env : Collaborators) (cfg : AgentConfig) (spec : Json)
    (st : AgentState) (e : PyExn)
    (h : agentStep env cfg spec st = .raised e) :
    env.generate st.iteration = .error e := by
  unfold agentStep at h
  cases hg : env.generate st.iteration with
  | error e2 =>
    simp only [hg] at h
    cases h
    rfl
  | ok txt =>
    simp only [hg] at h
    exfalso
    repeat' split at h
    all_goals first
      | (cases h)
      | (exact retryOrFail_ne_raised _ _ _ _ _ h)

/-- The internal terminate dispatch always reports `ok = true`
(`agent.py` line 212 hardcodes `{"ok": True, ...}`), whatever the tool
name routed there. -/
theorem dispatch_term_ok (env : Collaborators) (i : Nat) (t : String)
    (args : List (String × Json)) (ok : Bool) (s : String)
    (h : dispatch env i t args = .ok (.term ok s)) : ok = true := by
  unfold dispatch at h
  split at h
  · cases he : env.write_code i <;> simp [he, Except.map] at h
  · split at h
    · cases he : env.write_docs i <;> simp [he, Except.map] at h
    · split at h
      · cases he : env.write_tests i <;> simp [he, Except.map] at h
      · split at h
        · cases he : env.run_checks i <;> simp [he, Except.map] at h
        · split at h
          · cases he : env.save_file i <;> simp [he, Except.map] at h
          · split at h
            · cases h
              rfl
            · cases h

/-- Every terminal failure produced inside the loop body carries one of
the three fault-budget summaries. -/
theorem agentStep_done_shape (env : Collaborators) (cfg : AgentConfig)
    (spec : Json) (st : AgentState) (r : AgentResult)
    (h : agentStep env cfg spec st = .done r) (hok : r.ok = false) :
    (∃ e, r.summary = parseFailSummary e) ∨
    (∃ d, r.summary = "Tool execution failed after retries.\n" ++ d) ∨
    (∃ d, r.summary = "Unknown tool repeated. " ++ d) := by
  unfold agentStep at h
  cases hg : env.generate st.iteration with
  | error e =>
    simp only [hg] at h
    cases h
  | ok txt =>
    simp only [hg] at h
    cases hp : safe_parse_action txt.toList with
    | error err =>
      simp only [hp] at h
      unfold retryOrFail at h
      split at h
      · cases h
        exact Or.inl ⟨err, rfl⟩
      · cases h
    | ok action =>
      simp only [hp] at h
      cases hd : dispatch env st.iteration action.tool_name action.args with
      | error e =>
        simp only [hd] at h
        unfold retryOrFail at h
        split at h
        · cases h
          exact Or.inr (Or.inl ⟨_, rfl⟩)
        · cases h
      | ok res =>
        simp only [hd] at h
        split at h
        · cases h
        · cases h
        · cases h
        · cases h
        · cases h
          simp at hok
        · have hok2 := dispatch_term_ok env st.iteration action.tool_name action.args _ _ hd
          cases h
          simp [hok2] at hok
        · unfold retryOrFail at h
          split at h
          · cases h
            exact Or.inr (Or.inr ⟨_, rfl⟩)
          · cases h

/-- Whenever the generator never raises, the loop returns a result. -/
theorem loop_total_of_gen_ok (env : Collaborators) (cfg : AgentConfig) (spec : Json)
    (H : ∀ i, ∃ t, env.generate i = .ok t) :
    ∀ fuel st, ∃ r, agentLoop env cfg spec fuel st = .ok r := by
  intro fuel
  induction fuel with
  | zero => intro st; exact ⟨_, rfl⟩
  | succ n ih =>
    intro st
    cases hs : agentStep env cfg spec st with
    | next st' =>
      obtain ⟨r, hr⟩ := ih st'
      refine ⟨r, ?_⟩
      show agentLoop env cfg spec (n + 1) st = _
      unfold agentLoop
      rw [hs]
      exact hr
    | done r =>
      refine ⟨r, ?_⟩
      show agentLoop env cfg spec (n + 1) st = _
      unfold agentLoop
      rw [hs]
    | raised e =>
      exfalso
      have hge := agentStep_raised env cfg spec st e hs
      obtain ⟨t, hgt⟩ := H st.iteration
      rw [hgt] at hge
      cases hge

/-- Every returned failure carries a budget-exhaustion summary. -/
theorem loop_failure_shape (env : Collaborators) (cfg : AgentConfig) (spec : Json) :
    ∀ fuel st r, agentLoop env cfg spec fuel st = .ok r → r.ok = false →
      r.summary = exceededMsg cfg ∨ (∃ e, r.summary = parseFailSummary e) ∨
      (∃ d, r.summary = "Tool execution failed after retries.\n" ++ d) ∨
      (∃ d, r.summary = "Unknown tool repeated. " ++ d) := by
  intro fuel
  induction fuel with
  | zero =>
    intro st r h _
    cases h
    exact Or.inl rfl
  | succ n ih =>
    intro st r h hok
    unfold agentLoop at h
    cases hs : agentStep env cfg spec st with
    | next st' =>
      rw [hs] at h
      exact ih st' r h hok
    | done r' =>
      rw [hs] at h
      have hshape := fun hok' => agentStep_done_shape env cfg spec st r' hs hok'
      cases h
      rcases hshape hok with h1 | h2 | h3
      · exact Or.inr (Or.inl h1)
      · exact Or.inr (Or.inr (Or.inl h2))
      · exact Or.inr (Or.inr (Or.inr h3))
    | raised e =>
      rw [hs] at h
      cases h

/-- Collaborators whose generating collaborator raises a transport fault
on every call. -/
def envGenRaise : Collaborators :=
  ⟨fun _ => .error ⟨"LLMError", "OpenAI call failed: APIConnectionError: connection refused"⟩,
   fun _ => .ok "", fun _ => .ok "", fun _ => .ok "",
   fun _ => .ok (true, []), fun _ => .ok []⟩

/-- C1 counterexample: when the generating collaborator raises a transport
fault, `Agent.run` does not treat it as a dispatch-layer fault for that
iteration — the exception propagates out of the run (the `generate` call
at `agent.py` line 67 sits outside the `try` block), so no `RunResult` is
returned at all. -/
theorem c1_counterexample :
    agentRun envGenRaise defaultConfig (.obj []) =
      .error ⟨"LLMError", "OpenAI call failed: APIConnectionError: connection refused"⟩ ∧
    (agentRun envGenRaise defaultConfig (.obj [])).isOk = false :=
  ⟨by rfl, by rfl⟩

/-- C1 amended: provided the generating collaborator never raises,
`Agent.run` returns exactly one `RunResult` and never raises, and every
terminal failure carries a budget-exhaustion summary (the parse-retry,
tool-retry, unknown-tool-retry or iteration-budget message) — tool
collaborator faults are contained as dispatch-layer faults.  When the
generating collaborator does raise, the fault propagates out of
`Agent.run` unchanged instead of being treated as a dispatch-layer fault
for that iteration. -/
theorem c1_amended :
    (∀ (env : Collaborators) (cfg : AgentConfig) (spec : Json),
      (∀ i, ∃ t, env.generate i = .ok t) →
      ∃ r, agentRun env cfg spec = .ok r) ∧
    (∀ (env : Collaborators) (cfg : AgentConfig) (spec : Json) (e : PyExn),
      0 < cfg.max_iterations → env.generate 0 = .error e →
      agentRun env cfg spec = .error e) ∧
    (∀ (env : Collaborators) (cfg : AgentConfig) (spec : Json) (r : AgentResult),
      agentRun env cfg spec = .ok r → r.ok = false →
      r.summary = exceededMsg cfg ∨ (∃ e, r.summary = parseFailSummary e) ∨
      (∃ d, r.summary = "Tool execution failed after retries.\n" ++ d) ∨
      (∃ d, r.summary = "Unknown tool repeated. " ++ d)) := by
  refine ⟨?_, ?_, ?_⟩
  · intro env cfg spec H
    exact loop_total_of_gen_ok env cfg spec H cfg.max_iterations initialAgentState
  · intro env cfg spec e hpos hg
    obtain ⟨n, hn⟩ : ∃ n, cfg.max_iterations = n + 1 :=
      ⟨cfg.max_iterations - 1, by omega⟩
    have hs : agentStep env cfg spec initialAgentState = .raised e := by
      unfold agentStep
      simp only [show env.generate initialAgentState.iteration = .error e from hg]
    show agentLoop env cfg spec cfg.max_iterations initialAgentState = _
    rw [hn]
    unfold agentLoop
    rw [hs]
  · intro env cfg spec r h hok
    exact loop_failure_shape env cfg spec cfg.max_iterations initialAgentState r h hok

/-- Concrete instance of `c1_amended`: a run whose generator always
replies (even unparseably) returns a result, and a run whose generator
raises at once propagates that exception. -/
theorem c1_witness :
    (∃ r, agentRun envParseFail defaultConfig (.obj []) = .ok r) ∧
    agentRun envGenRaise cfgThree (.obj []) =
      .error ⟨"LLMError", "OpenAI call failed: APIConnectionError: connection refused"⟩ :=
  ⟨c1_amended.1 envParseFail defaultConfig (.obj []) (fun _ => ⟨_, rfl⟩),
   c1_amended.2.1 envGenRaise cfgThree (.obj []) _ (by decide) rfl⟩

/-- C9: whenever the snapshot's check list is a non-empty list, the
builder emits exactly one checks section, holding the first ten check
messages each prefixed with the `- ` marker (hence at most 10 entries),
and that section is one of the prompt's lines; with an absent or empty
check list the builder emits no checks section at all. -/
theorem c9_checks_section (snap : MemorySnapshot) :
    (∀ cs, snap.last_checks = some cs → cs ≠ [] →
      checksSection snap =
        ["\nLAST_CHECKS:\n" ++
          String.intercalate "\n" ((cs.take 10).map (fun c => "- " ++ c))] ∧
      (cs.take 10).length ≤ 10 ∧
      ("\nLAST_CHECKS:\n" ++
        String.intercalate "\n" ((cs.take 10).map (fun c => "- " ++ c)))
        ∈ buildPromptLines snap) ∧
    ((snap.last_checks = none ∨ snap.last_checks = some []) →
      checksSection snap = []) := by
  constructor
  · intro cs hcs hne
    have hie : cs.isEmpty = false := by
      cases cs with
      | nil => exact absurd rfl hne
      | cons a l => rfl
    have hsec : checksSection snap =
        ["\nLAST_CHECKS:\n" ++
          String.intercalate "\n" ((cs.take 10).map (fun c => "- " ++ c))] := by
      unfold checksSection
      simp only [hcs, hie, Bool.false_eq_true, if_false]
    refine ⟨hsec, ?_, ?_⟩
    · rw [List.length_take]
      exact Nat.min_le_left _ _
    · unfold buildPromptLines
      rw [hsec]
      simp
  · intro h
    unfold checksSection
    rcases h with h | h <;> rw [h] <;> rfl

/-- A Fix-phase snapshot carrying twelve check messages. -/
def snapTwelve : MemorySnapshot :=
  ⟨.FIX, .obj [], "c", "t",
   some ["m1", "m2", "m3", "m4", "m5", "m6", "m7", "m8", "m9", "m10", "m11", "m12"],
   4, 0⟩

/-- A snapshot with no check list at all. -/
def snapNoChecks : MemorySnapshot := ⟨.IMPLEMENT, .obj [], "", "", none, 0, 0⟩

/-- Concrete instance of `c9_checks_section`: twelve pending messages give
one section line with exactly the first ten entries, and an absent list
gives no section. -/
theorem c9_witness :
    checksSection snapTwelve =
      ["\nLAST_CHECKS:\n- m1\n- m2\n- m3\n- m4\n- m5\n- m6\n- m7\n- m8\n- m9\n- m10"] ∧
    checksSection snapNoChecks = [] := by
  constructor
  · exact (((c9_checks_section snapTwelve).1 _ rfl (by decide)).1).trans (by rfl)
  · exact (c9_checks_section snapNoChecks).2 (Or.inl rfl)

/-- C10: whenever `run_checks` completes normally, the returned `ok` flag
is true exactly when the returned check list is empty: a false flag comes
with at least one diagnostic, and a true flag with none. -/
theorem c10_run_checks_ok_iff (spec : Json) (code tests : String) (strict : Bool)
    (proc : ChecksBlockOutcome) (ok : Bool) (checks : List String)
    (h : run_checks spec code tests strict proc = .ok (ok, checks)) :
    ok = true ↔ checks = [] := by
  have finish_ok : ∀ (cs : List String), finishChecks cs = .ok (ok, checks) →
      (ok = true ↔ checks = []) := by
    intro cs hf
    cases hf
    exact List.isEmpty_iff
  unfold run_checks at h
  repeat' split at h
  all_goals try (simp only [] at h)
  all_goals try (repeat' split at h)
  all_goals first
    | (exact finish_ok _ h)
    | (cases h <;> exact List.isEmpty_iff)
    | (cases h)

/-- A specification document under which the sample artifacts pass every
check. -/
def specW : Json :=
  .obj [("id", .str "x"), ("function", .obj [("name", .str "foo")]),
        ("quality", .obj [("min_tests", .num 1)])]

/-- Concrete instance of `c10_run_checks_ok_iff`: a clean run returns
`ok = true` with no diagnostics, and a failing unittest process returns
`ok = false` with one diagnostic. -/
theorem c10_witness :
    run_checks specW "def foo():\n    return 1\n" "def test_a(): pass\n" true
      (.normal ⟨0, "", ""⟩ ⟨0, "", ""⟩) = .ok (true, []) ∧
    (true = true ↔ ([] : List String) = []) ∧
    run_checks specW "def foo():\n    return 1\n" "def test_a(): pass\n" true
      (.normal ⟨0, "", ""⟩ ⟨1, "", "boom"⟩) = .ok (false, ["unittest failed: boom"]) ∧
    (false = true ↔ (["unittest failed: boom"] : List String) = []) := by
  have hA : run_checks specW "def foo():\n    return 1\n" "def test_a(): pass\n" true
      (.normal ⟨0, "", ""⟩ ⟨0, "", ""⟩) = .ok (true, []) := by rfl
  have hB : run_checks specW "def foo():\n    return 1\n" "def test_a(): pass\n" true
      (.normal ⟨0, "", ""⟩ ⟨1, "", "boom"⟩) = .ok (false, ["unittest failed: boom"]) := by rfl
  exact ⟨hA, c10_run_checks_ok_iff _ _ _ _ _ _ _ hA, hB,
    c10_run_checks_ok_iff _ _ _ _ _ _ _ hB⟩
